import Mathlib

/-
  Verification development for the Private Data Manager (PDM) browser
  extension.  The definitions below are a shallow embedding of the
  TypeScript sources:

    * src/utils/nillion-client.ts  (IdentityManager: key derivation,
      AES-GCM encryption of the credential blob, secure store/retrieve
      with an in-process session cache)
    * src/utils/nillion.ts        (NillionManager: storage client with
      Online/Fallback ("demo") modes, fallback permission ledger)
    * src/background/background.ts (action router, session management,
      sliding-window rate limiter)
    * src/utils/messaging.ts      (MessageHandler: origin policy and
      admission checks for window messages)

  Byte strings are `List Nat` with entries < 256.  Platform crypto
  primitives (WebCrypto PBKDF2 / AES-GCM), which are not part of the
  repository, are modelled as idealized executable functions with the
  interface the source relies on: key derivation is a deterministic
  function of (passphrase, salt); AES-GCM is an authenticated stream
  cipher (keystream addition mod 256 plus a 16-byte tag over key, iv and
  ciphertext).  Everything else (base64, the salt/iv plumbing, the
  state machines) is translated directly from the source.
-/

namespace PDM

/-- JS truthiness for an optional string: `undefined`/`null` and the
empty string are falsy, every other string is truthy. -/
def jsTruthy : Option String → Bool
  | none => false
  | some s => s != ""

/-- Model of the JS `a || b` idiom on optional strings (used for
`metadata.collectionId || metadata.collection` in `storeData`). -/
def jsOrStr (a b : Option String) : Option String :=
  if jsTruthy a then a else b

/-- UTF-16 code units of a string, as naturals (model of
`TextEncoder.encode` restricted to ASCII inputs, where both agree). -/
def strBytes (s : String) : List Nat := s.data.map Char.toNat

/-- Inverse direction for ASCII byte lists (model of `TextDecoder`). -/
def bytesStr (l : List Nat) : String := String.mk (l.map Char.ofNat)

/-- Injective encoding of a byte list into a natural (base-257 digits
shifted by one so that length is also captured).  Used only to build
the idealized key-derivation and keystream functions. -/
def encodeBytes : List Nat → Nat
  | [] => 0
  | b :: bs => encodeBytes bs * 257 + (b + 1)

/-- Idealized PBKDF2-HMAC-SHA-256 (`IdentityManager.deriveKey`): a
deterministic function of the passphrase bytes and the salt bytes. -/
def deriveKey (password salt : List Nat) : Nat :=
  Nat.pair (encodeBytes password) (encodeBytes salt)

/-- Idealized AES-GCM keystream: byte `i` of the keystream determined
by the key and the IV. -/
def gcmKeystream (key : Nat) (iv : List Nat) (i : Nat) : Nat :=
  (key + encodeBytes iv + i) % 256

/-- Stream-cipher encryption: add the keystream byte-wise mod 256. -/
def ctrEnc (ks : Nat → Nat) : Nat → List Nat → List Nat
  | _, [] => []
  | i, b :: bs => (b + ks i) % 256 :: ctrEnc ks (i + 1) bs

/-- Stream-cipher decryption: subtract the keystream byte-wise mod 256. -/
def ctrDec (ks : Nat → Nat) : Nat → List Nat → List Nat
  | _, [] => []
  | i, c :: cs => (c + 256 - ks i % 256) % 256 :: ctrDec ks (i + 1) cs

/-- Idealized 16-byte GCM authentication tag over key, IV and
ciphertext body. -/
def gcmTag (key : Nat) (iv body : List Nat) : List Nat :=
  (List.range 16).map (fun i => (Nat.pair key (encodeBytes (iv ++ body)) + i) % 256)

/-- AES-GCM encryption as used by `window.crypto.subtle.encrypt`: the
ciphertext is the encrypted body with the authentication tag
appended. -/
def aesGcmEncrypt (key : Nat) (iv pt : List Nat) : List Nat :=
  let body := ctrEnc (gcmKeystream key iv) 0 pt
  body ++ gcmTag key iv body

/-- AES-GCM decryption (`window.crypto.subtle.decrypt`): split off the
16-byte tag, verify it, and decrypt the body; `none` models the
`OperationError` rejection on authentication failure. -/
def aesGcmDecrypt (key : Nat) (iv ct : List Nat) : Option (List Nat) :=
  if ct.length < 16 then none
  else
    let body := ct.take (ct.length - 16)
    let tag := ct.drop (ct.length - 16)
    if tag = gcmTag key iv body then some (ctrDec (gcmKeystream key iv) 0 body)
    else none

/-- Base64 encoding of a byte list (model of
`btoa(String.fromCharCode(...bytes))`); output entries are sextet
values < 64, with 64 standing for the padding character. -/
def b64encode : List Nat → List Nat
  | [] => []
  | [a] => [a / 4, a % 4 * 16, 64, 64]
  | [a, b] => [a / 4, a % 4 * 16 + b / 16, b % 16 * 4, 64]
  | a :: b :: c :: rest =>
    a / 4 :: (a % 4 * 16 + b / 16) :: (b % 16 * 4 + c / 64) :: c % 64 :: b64encode rest

/-- Base64 decoding (model of `atob` followed by `charCodeAt`
extraction). -/
def b64decode : List Nat → List Nat
  | w :: x :: y :: z :: rest =>
    if y = 64 then [w * 4 + x / 16]
    else if z = 64 then [w * 4 + x / 16, x % 16 * 16 + y / 4]
    else (w * 4 + x / 16) :: (x % 16 * 16 + y / 4) :: (y % 4 * 64 + z) :: b64decode rest
  | _ => []

/-- The `(data, salt, iv)` triple produced by
`IdentityManager.encryptData`, each component base64-encoded. -/
structure EncryptedData where
  data : List Nat
  salt : List Nat
  iv : List Nat
deriving DecidableEq

/-- `IdentityManager.encryptData`: derive a key from the password and a
fresh salt, AES-GCM-encrypt the plaintext under a fresh IV, and return
the three components base64-encoded.  The randomness (salt, iv) is an
explicit argument. -/
def encryptData (plaintext password salt iv : List Nat) : EncryptedData :=
  let key := deriveKey password salt
  { data := b64encode (aesGcmEncrypt key iv plaintext)
  , salt := b64encode salt
  , iv := b64encode iv }

/-- `IdentityManager.decryptData`: base64-decode the three components,
re-derive the key from the password and the stored salt, and AES-GCM
decrypt; `none` models the thrown `OperationError` on a wrong key. -/
def decryptData (e : EncryptedData) (password : List Nat) : Option (List Nat) :=
  let salt := b64decode e.salt
  let iv := b64decode e.iv
  let ct := b64decode e.data
  aesGcmDecrypt (deriveKey password salt) iv ct

/-- `NillionCredentials` (src/utils/index.ts); only the fields the
modelled code paths read (`apiKey`, `privateKey`) are kept. -/
structure NillionCredentials where
  apiKey : String
  privateKey : Option String
deriving DecidableEq

/-- One record of the fallback document list `pdm_demo_data_<userDid>`
as built by `NillionManager.storeDataLocally`; the record's redundant
`id` alias of `dataId` is represented by `dataId` itself, and the
spread `...data` payload is kept opaque. -/
structure DataItem where
  dataId : String
  collectionId : String
  payload : String
  timestamp : Nat
  storedAt : String
deriving DecidableEq

/-- One entry of the fallback permission ledger
`pdm_permissions_<userDid>` (`NillionManager.grantPermission`, catch
branch). -/
structure PermissionEntry where
  id : String
  dataId : String
  collectionId : String
  appDid : String
  permissions : List String
  grantedAt : String
deriving DecidableEq

/-- In-memory state of the `NillionManager` singleton
(src/utils/nillion.ts). -/
structure NillionState where
  credentials : Option NillionCredentials
  userPrivateKey : Option String
  userDid : Option String
  demoMode : Bool
deriving DecidableEq

/-- `NillionManager.isInitialized`. -/
def isInitialized (nm : NillionState) : Bool :=
  nm.credentials.isSome && nm.userPrivateKey.isSome

/-- The slice of `chrome.storage.local` the modelled code reads and
writes, keyed for the current user DID.  `strayDemoData` stands for the
other `pdm_demo_data_did:nil:*` keys that `listDataLocally` may migrate
from; `credBlob` is `pdm_nillion_credentials`. -/
structure LocalStorage where
  demoModeFlag : Bool
  storedUserDid : Option String
  demoData : List DataItem
  strayDemoData : List (List DataItem)
  permissions : List PermissionEntry
  credBlob : Option EncryptedData
deriving DecidableEq

/-- Oracle inputs for one storage-client call: the identifier minted by
`crypto.randomUUID`, the two clocks (`Date.now()` and
`toISOString()`), and the outcome each remote endpoint would produce
if called.  `remoteGet` and `remoteDelete` take the `dataId` and the
`collection` query parameter interpolated into the request URL
(`/api/data/<dataId>?userKey=…&collection=<collectionId>`), so the
remote outcome may depend on both.  `Except.error` covers network
failures, non-success responses and offscreen-adapter errors, all
handled by the same `catch` in the source. -/
structure NMEnv where
  uuid : String
  now : Nat
  nowIso : String
  remoteDid : Except String String
  remoteStore : Except String String
  remoteGet : String → String → Except String DataItem
  remoteList : Except String (List DataItem)
  remoteDelete : String → String → Except String Unit
  remoteGrant : Except String Unit
  remoteRevoke : Except String Unit
  remotePerms : Except String (List PermissionEntry)

/-- Result of one storage-client operation: the returned value or
thrown error, the updated manager state and local storage, and the
remote endpoints the call attempted to reach. -/
structure NMOut (α : Type) where
  result : Except String α
  nm : NillionState
  ls : LocalStorage
  remoteTrace : List String

/-- `did:nil:demo_` + first 16 characters of the API key (the
deterministic fallback identity in `NillionManager.initialize`). -/
def demoDid (c : NillionCredentials) : String :=
  "did:nil:demo_" ++ c.apiKey.take 16

/-- `NillionManager.storeDataLocally`: append the new record to the
fallback document list. -/
def storeDataLocally (ls : LocalStorage) (dataId : String) (payload : String)
    (timestamp : Nat) (collectionId : String) (nowIso : String) : LocalStorage :=
  { ls with demoData := ls.demoData ++
      [{ dataId := dataId, collectionId := collectionId, payload := payload
       , timestamp := timestamp, storedAt := nowIso }] }

/-- `NillionManager.listDataLocally`, including the one-time migration
from a sibling user-did key when the current list is empty. -/
def listDataLocally (ls : LocalStorage) : List DataItem × LocalStorage :=
  if ls.demoData.isEmpty then
    match ls.strayDemoData with
    | [] => ([], ls)
    | v :: rest => (v, { ls with demoData := v, strayDemoData := rest })
  else (ls.demoData, ls)

/-- `NillionManager.retrieveDataLocally`: linear scan by `dataId`. -/
def retrieveDataLocally (ls : LocalStorage) (dataId : String) :
    Except String DataItem × LocalStorage :=
  let p := listDataLocally ls
  match p.1.find? (fun item => item.dataId == dataId) with
  | none => (.error "Data not found", p.2)
  | some d => (.ok d, p.2)

/-- `NillionManager.deleteDataLocally`: filter the record out. -/
def deleteDataLocally (ls : LocalStorage) (dataId : String) : LocalStorage :=
  { ls with demoData := ls.demoData.filter (fun item => item.dataId != dataId) }

/-- `NillionManager.storeData` (src/utils/nillion.ts:70-104).  Check
order is the source's: initialization guard, `collectionId`
requirement (`metadata.collectionId || metadata.collection`, JS
truthiness), then an unconditional attempt at `/api/data/store` even
when `demoMode` is already set, falling back to local persistence and
persisting the demo flag on failure. -/
def nmStoreData (nm : NillionState) (ls : LocalStorage) (payload : String)
    (metaCollectionId metaCollection : Option String) (env : NMEnv) : NMOut String :=
  if nm.userPrivateKey.isNone then
    { result := .error "Not initialized. Call initialize() first."
    , nm := nm, ls := ls, remoteTrace := [] }
  else
    let collectionId := jsOrStr metaCollectionId metaCollection
    if !jsTruthy collectionId then
      { result := .error "collectionId is required - app must provide it in metadata"
      , nm := nm, ls := ls, remoteTrace := [] }
    else
      match env.remoteStore with
      | .ok dataId =>
        { result := .ok dataId, nm := nm, ls := ls, remoteTrace := ["/api/data/store"] }
      | .error _ =>
        let ls1 := storeDataLocally { ls with demoModeFlag := true }
          env.uuid payload env.now (collectionId.getD "") env.nowIso
        { result := .ok env.uuid, nm := { nm with demoMode := true }
        , ls := ls1, remoteTrace := ["/api/data/store"] }

/-- `NillionManager.retrieveData` (src/utils/nillion.ts:106-133): no
`collectionId` validation; served locally when `demoMode` is set,
otherwise a remote GET of
`/api/data/<dataId>?userKey=…&collection=<collectionId>` — the
collection id is passed through as a query parameter, never checked —
with local fallback on failure. -/
def nmRetrieveData (nm : NillionState) (ls : LocalStorage)
    (dataId : String) (collectionId : String) (env : NMEnv) : NMOut DataItem :=
  if nm.userPrivateKey.isNone then
    { result := .error "Not initialized", nm := nm, ls := ls, remoteTrace := [] }
  else if nm.demoMode then
    let p := retrieveDataLocally ls dataId
    { result := p.1, nm := nm, ls := p.2, remoteTrace := [] }
  else
    let url := "GET /api/data/" ++ dataId ++ "?collection=" ++ collectionId
    match env.remoteGet dataId collectionId with
    | .ok d =>
      { result := .ok d, nm := nm, ls := ls, remoteTrace := [url] }
    | .error _ =>
      let p := retrieveDataLocally { ls with demoModeFlag := true } dataId
      { result := p.1, nm := { nm with demoMode := true }
      , ls := p.2, remoteTrace := [url] }

/-- `NillionManager.listUserData` (src/utils/nillion.ts:135-162). -/
def nmListUserData (nm : NillionState) (ls : LocalStorage) (env : NMEnv) :
    NMOut (List DataItem) :=
  if nm.userPrivateKey.isNone then
    { result := .error "Not initialized", nm := nm, ls := ls, remoteTrace := [] }
  else if nm.demoMode then
    let p := listDataLocally ls
    { result := .ok p.1, nm := nm, ls := p.2, remoteTrace := [] }
  else
    match env.remoteList with
    | .ok l =>
      { result := .ok l, nm := nm, ls := ls, remoteTrace := ["GET /api/data/list"] }
    | .error _ =>
      let p := listDataLocally { ls with demoModeFlag := true }
      { result := .ok p.1, nm := { nm with demoMode := true }
      , ls := p.2, remoteTrace := ["GET /api/data/list"] }

/-- `NillionManager.deleteData` (src/utils/nillion.ts:164-189): no
`collectionId` validation; the DELETE URL carries the collection id
as a query parameter
(`/api/data/<dataId>?userKey=…&collection=<collectionId>`). -/
def nmDeleteData (nm : NillionState) (ls : LocalStorage)
    (dataId : String) (collectionId : String) (env : NMEnv) : NMOut Unit :=
  if nm.userPrivateKey.isNone then
    { result := .error "Not initialized", nm := nm, ls := ls, remoteTrace := [] }
  else if nm.demoMode then
    { result := .ok (), nm := nm, ls := deleteDataLocally ls dataId, remoteTrace := [] }
  else
    let url := "DELETE /api/data/" ++ dataId ++ "?collection=" ++ collectionId
    match env.remoteDelete dataId collectionId with
    | .ok _ =>
      { result := .ok (), nm := nm, ls := ls, remoteTrace := [url] }
    | .error _ =>
      { result := .ok (), nm := { nm with demoMode := true }
      , ls := deleteDataLocally { ls with demoModeFlag := true } dataId
      , remoteTrace := [url] }

/-- `NillionManager.grantPermission` (src/utils/nillion.ts:191-226):
always attempts the remote grant first (even in `demoMode`); on
failure appends a fresh-uuid entry to the fallback ledger.  The catch
branch sets `demoMode` in memory but does not persist the flag. -/
def nmGrantPermission (nm : NillionState) (ls : LocalStorage)
    (dataId : String) (collectionId : String) (appDid : String)
    (perms : List String) (env : NMEnv) : NMOut Unit :=
  if nm.userPrivateKey.isNone then
    { result := .error "Not initialized", nm := nm, ls := ls, remoteTrace := [] }
  else
    match env.remoteGrant with
    | .ok _ =>
      { result := .ok (), nm := nm, ls := ls, remoteTrace := ["/api/permissions/grant"] }
    | .error _ =>
      { result := .ok (), nm := { nm with demoMode := true }
      , ls := { ls with permissions := ls.permissions ++
          [{ id := env.uuid, dataId := dataId, collectionId := collectionId
           , appDid := appDid, permissions := perms, grantedAt := env.nowIso }] }
      , remoteTrace := ["/api/permissions/grant"] }

/-- `NillionManager.revokePermission` (src/utils/nillion.ts:228-260):
always attempts the remote revoke first; on failure filters the
fallback ledger — by exact `id` when a (truthy) `permissionId` is
supplied, otherwise by the `(dataId, collectionId, appDid)` tuple. -/
def nmRevokePermission (nm : NillionState) (ls : LocalStorage)
    (dataId : String) (collectionId : String) (appDid : String)
    (permissionId : Option String) (env : NMEnv) : NMOut Unit :=
  if nm.userPrivateKey.isNone then
    { result := .error "Not initialized", nm := nm, ls := ls, remoteTrace := [] }
  else
    match env.remoteRevoke with
    | .ok _ =>
      { result := .ok (), nm := nm, ls := ls, remoteTrace := ["/api/permissions/revoke"] }
    | .error _ =>
      let filtered :=
        if jsTruthy permissionId then
          ls.permissions.filter (fun p => p.id != permissionId.getD "")
        else
          ls.permissions.filter (fun p =>
            !(p.dataId == dataId && p.collectionId == collectionId && p.appDid == appDid))
      { result := .ok (), nm := { nm with demoMode := true }
      , ls := { ls with permissions := filtered }
      , remoteTrace := ["/api/permissions/revoke"] }

/-- `NillionManager.listPermissions` (src/utils/nillion.ts:262-288):
served from the fallback ledger when `demoMode` is set, otherwise a
remote list with ledger fallback. -/
def nmListPermissions (nm : NillionState) (ls : LocalStorage) (env : NMEnv) :
    NMOut (List PermissionEntry) :=
  if nm.userPrivateKey.isNone then
    { result := .error "Not initialized", nm := nm, ls := ls, remoteTrace := [] }
  else if nm.demoMode then
    { result := .ok ls.permissions, nm := nm, ls := ls, remoteTrace := [] }
  else
    match env.remotePerms with
    | .ok l =>
      { result := .ok l, nm := nm, ls := ls, remoteTrace := ["/api/permissions/list"] }
    | .error _ =>
      { result := .ok ls.permissions, nm := { nm with demoMode := true }
      , ls := ls, remoteTrace := ["/api/permissions/list"] }

/-- The tail of `NillionManager.initialize` (src/utils/nillion.ts:25-64)
after `getNillionCredentials` has produced `creds?`: record the
credentials and private key, honour a persisted demo flag, otherwise
ask the remote service for the user's DID and fall back permanently on
failure. -/
def nmInitAfterCreds (nm : NillionState) (ls : LocalStorage)
    (creds? : Option NillionCredentials) (env : NMEnv) : NMOut Unit :=
  let nm0 := { nm with credentials := creds? }
  match creds? with
  | none =>
    { result := .error "Nillion credentials not found. Please set up your wallet first."
    , nm := nm0, ls := ls, remoteTrace := [] }
  | some creds =>
    let nm1 := { nm0 with userPrivateKey := creds.privateKey }
    if ls.demoModeFlag then
      let did := if jsTruthy ls.storedUserDid then ls.storedUserDid.getD "" else demoDid creds
      { result := .ok (), nm := { nm1 with demoMode := true, userDid := some did }
      , ls := ls, remoteTrace := [] }
    else
      match env.remoteDid with
      | .ok did =>
        { result := .ok (), nm := { nm1 with userDid := some did }
        , ls := { ls with storedUserDid := some did }, remoteTrace := ["/api/user/did"] }
      | .error _ =>
        let did := demoDid creds
        { result := .ok (), nm := { nm1 with demoMode := true, userDid := some did }
        , ls := { ls with demoModeFlag := true, storedUserDid := some did }
        , remoteTrace := ["/api/user/did"] }

/-- Serialization of a credentials record (model of `JSON.stringify`
on `NillionCredentials`, as an injective length-prefixed byte
encoding). -/
def encodeCreds (c : NillionCredentials) : List Nat :=
  match c.privateKey with
  | none => 0 :: (strBytes c.apiKey).length :: strBytes c.apiKey
  | some pk =>
    1 :: (strBytes c.apiKey).length ::
      (strBytes c.apiKey ++ ((strBytes pk).length :: strBytes pk))

/-- Inverse of `encodeCreds` (model of `JSON.parse`). -/
def decodeCreds (l : List Nat) : Option NillionCredentials :=
  match l with
  | 0 :: n :: rest =>
    if rest.length = n then some { apiKey := bytesStr rest, privateKey := none } else none
  | 1 :: n :: rest =>
    let ak := rest.take n
    match rest.drop n with
    | m :: pkRest =>
      if ak.length = n ∧ pkRest.length = m then
        some { apiKey := bytesStr ak, privateKey := some (bytesStr pkRest) }
      else none
    | [] => none
  | _ => none

/-- `SessionData` (src/utils/nillion-client.ts). -/
structure SessionData where
  did : String
  timestamp : Nat
  expiresAt : Nat
deriving DecidableEq

/-- `IdentityManager.SESSION_TIMEOUT` (24 hours). -/
def IDENTITY_SESSION_TIMEOUT : Nat := 24 * 60 * 60 * 1000

/-- The slice of `IdentityManager` state the modelled paths touch: the
in-process `sessionCache` entries for `nillion_credentials` and
`current_session`, and the persisted `pdm_current_session` record.
The encrypted credential blob itself lives in `LocalStorage.credBlob`
(key `pdm_nillion_credentials`). -/
structure IdentityState where
  credsCache : Option NillionCredentials
  currentSessionCache : Option SessionData
  storedCurrentSession : Option SessionData
deriving DecidableEq

/-- `IdentityManager.getNillionCredentials` =
`secureRetrieve('nillion_credentials', password)`
(src/utils/nillion-client.ts:167-190, 255-257): the session cache is
consulted first and its value is returned without any decryption or
passphrase check; only on a cache miss is the stored blob decrypted
with the supplied password.  A wrong password surfaces as the thrown
WebCrypto `OperationError`; an unparsable plaintext as a thrown parse
error. -/
def getNillionCredentials (ident : IdentityState) (ls : LocalStorage)
    (password : String) : Except String (Option NillionCredentials × IdentityState) :=
  match ident.credsCache with
  | some c => .ok (some c, ident)
  | none =>
    match ls.credBlob with
    | none => .ok (none, ident)
    | some blob =>
      match decryptData blob (strBytes password) with
      | none => .error "OperationError"
      | some pt =>
        match decodeCreds pt with
        | none => .error "SyntaxError"
        | some c => .ok (some c, { ident with credsCache := some c })

/-- `IdentityManager.storeNillionCredentials` = `secureStore` with a
password: encrypt the serialized credentials under a fresh salt/iv,
persist the blob, and put the plaintext value in the session cache. -/
def storeNillionCredentials (ident : IdentityState) (ls : LocalStorage)
    (creds : NillionCredentials) (password : String) (salt iv : List Nat) :
    IdentityState × LocalStorage :=
  ({ ident with credsCache := some creds },
   { ls with credBlob := some (encryptData (encodeCreds creds) (strBytes password) salt iv) })

/-- `IdentityManager.createSession`: store a fresh session record in
both the persistent slot and the session cache. -/
def createSession (ident : IdentityState) (did : String) (now : Nat) : IdentityState :=
  let sd : SessionData :=
    { did := did, timestamp := now, expiresAt := now + IDENTITY_SESSION_TIMEOUT }
  { ident with currentSessionCache := some sd, storedCurrentSession := some sd }

/-- `IdentityManager.clearSession`: remove only the `current_session`
entries; crucially, the cached `nillion_credentials` value is NOT
evicted. -/
def clearSession (ident : IdentityState) : IdentityState :=
  { ident with currentSessionCache := none, storedCurrentSession := none }

/-- `IdentityManager.getCurrentSession`: cache-first retrieve, with
expiry clearing. -/
def getCurrentSession (ident : IdentityState) (now : Nat) :
    Option SessionData × IdentityState :=
  let p : Option SessionData × IdentityState :=
    match ident.currentSessionCache with
    | some s => (some s, ident)
    | none =>
      match ident.storedCurrentSession with
      | none => (none, ident)
      | some s => (some s, { ident with currentSessionCache := some s })
  match p.1 with
  | none => (none, p.2)
  | some s => if s.expiresAt < now then (none, clearSession p.2) else (some s, p.2)

/-- `IdentityManager.getDID`: `session?.did || null`. -/
def getDID (ident : IdentityState) (now : Nat) : Option String × IdentityState :=
  let p := getCurrentSession ident now
  (jsOrStr (p.1.map SessionData.did) none, p.2)

/-- Rate-limit configuration record (src/utils/messaging.ts). -/
structure RateLimitCfg where
  maxRequests : Nat
  windowMs : Nat
deriving DecidableEq

/-- `OriginConfig` (src/utils/messaging.ts:32-44). -/
structure OriginConfig where
  origin : String
  permissions : List String
  allowedActions : List String
  rateLimit : RateLimitCfg
  requiresApproval : Bool
  isBlocked : Bool
  createdAt : Nat
  lastUsed : Nat
deriving DecidableEq

/-- `MessageHandler.DEFAULT_RATE_LIMIT`. -/
def DEFAULT_RATE_LIMIT : RateLimitCfg := { maxRequests := 100, windowMs := 60000 }

/-- `RateLimitEntry` of the fixed-window counter
(src/utils/messaging.ts:46-49). -/
structure RateLimitEntry where
  count : Nat
  windowStart : Nat
deriving DecidableEq

/-- In-memory `MessageHandler` state: the `allowedOrigins` and
`rateLimitMap` maps, as association lists looked up by key.
`saveOriginConfigs`/`loadOriginConfigs` persist and restore
`allowedOrigins` verbatim, so the in-memory map is the single source
of truth here. -/
structure MHState where
  allowedOrigins : List (String × OriginConfig)
  rateLimitMap : List (String × RateLimitEntry)
deriving DecidableEq

/-- Map lookup on an association list (model of `Map.get`). -/
def mapGet {α : Type} (m : List (String × α)) (k : String) : Option α :=
  (m.find? (fun e => e.1 == k)).map Prod.snd

/-- Map update (model of `Map.set`, replacing any existing binding). -/
def mapSet {α : Type} (m : List (String × α)) (k : String) (v : α) :
    List (String × α) :=
  (k, v) :: m.filter (fun e => e.1 != k)

/-- Map removal (model of `Map.delete`). -/
def mapDelete {α : Type} (m : List (String × α)) (k : String) :
    List (String × α) :=
  m.filter (fun e => e.1 != k)

/-- `MessageHandler.addAllowedOrigin` (messaging.ts:479-498); used by
the background router's `connect` handler (requiresApproval false,
lastUsed 0). -/
def addAllowedOrigin (mh : MHState) (origin : String) (perms : List String)
    (actions : List String) (rate : RateLimitCfg) (now : Nat) : MHState :=
  let config : OriginConfig :=
    { origin := origin, permissions := perms, allowedActions := actions
    , rateLimit := rate, requiresApproval := false, isBlocked := false
    , createdAt := now, lastUsed := 0 }
  { mh with allowedOrigins := mapSet mh.allowedOrigins origin config }

/-- `MessageHandler.removeAllowedOrigin` (messaging.ts:500-504). -/
def removeAllowedOrigin (mh : MHState) (origin : String) : MHState :=
  { allowedOrigins := mapDelete mh.allowedOrigins origin
  , rateLimitMap := mapDelete mh.rateLimitMap origin }

/-- `MessageHandler.isOriginAllowed` (messaging.ts:124-127). -/
def isOriginAllowed (mh : MHState) (origin : String) : Bool :=
  match mapGet mh.allowedOrigins origin with
  | some c => !c.isBlocked
  | none => false

/-- `MessageHandler.isActionAllowed` (messaging.ts:129-132). -/
def isActionAllowed (mh : MHState) (origin action : String) : Bool :=
  match mapGet mh.allowedOrigins origin with
  | some c => c.allowedActions.contains action
  | none => false

/-- `MessageHandler.checkRateLimit` (messaging.ts:134-156): fixed
window with per-config ceiling. -/
def checkRateLimit (mh : MHState) (origin : String) (now : Nat) : Bool × MHState :=
  let rl := match mapGet mh.allowedOrigins origin with
    | some c => c.rateLimit
    | none => DEFAULT_RATE_LIMIT
  let fresh : RateLimitEntry := { count := 1, windowStart := now }
  match mapGet mh.rateLimitMap origin with
  | none =>
    (true, { mh with rateLimitMap := mapSet mh.rateLimitMap origin fresh })
  | some e =>
    if rl.windowMs < now - e.windowStart then
      (true, { mh with rateLimitMap := mapSet mh.rateLimitMap origin fresh })
    else if rl.maxRequests ≤ e.count then (false, mh)
    else
      let bumped : RateLimitEntry := { count := e.count + 1, windowStart := e.windowStart }
      (true, { mh with rateLimitMap := mapSet mh.rateLimitMap origin bumped })

/-- Outcome of `MessageHandler.handleMessage`: an error posted back to
the page, or the request surviving admission and reaching
`processMessage`/`executeAction`.  The dispatch target (the legacy
`DataManager` path) is abstracted to the action name, since the
properties verified below concern the admission sequence that
precedes it. -/
inductive MHOutcome where
  | errorSent (msg : String)
  | dispatched (action : String)
deriving DecidableEq

/-- `MessageHandler.handleMessage` (messaging.ts:191-236) for a
structurally valid message: origin check, rate limit, action
whitelist, `lastUsed` bump, then dispatch. -/
def mhHandleMessage (mh : MHState) (eventOrigin : String) (action : String)
    (now : Nat) : MHOutcome × MHState :=
  if !isOriginAllowed mh eventOrigin then (.errorSent "Origin not allowed", mh)
  else
    let p := checkRateLimit mh eventOrigin now
    if !p.1 then (.errorSent "Rate limit exceeded", p.2)
    else if !isActionAllowed p.2 eventOrigin action then
      (.errorSent "Action not allowed", p.2)
    else
      let mh2 := match mapGet p.2.allowedOrigins eventOrigin with
        | some c =>
          let used : OriginConfig := { c with lastUsed := now }
          { p.2 with allowedOrigins := mapSet p.2.allowedOrigins eventOrigin used }
        | none => p.2
      (.dispatched action, mh2)

/-- `MessageHandler.handleConnect` (messaging.ts:398-423): create a
config only when the origin is new (requiresApproval true). -/
def mhHandleConnect (mh : MHState) (origin : String)
    (requestedPermissions requestedActions : Option (List String))
    (rateLimit : Option RateLimitCfg) (now : Nat) : MHState :=
  match mapGet mh.allowedOrigins origin with
  | some _ => mh
  | none =>
    let config : OriginConfig :=
      { origin := origin
      , permissions := requestedPermissions.getD ["read"]
      , allowedActions := requestedActions.getD ["ping", "get_identity"]
      , rateLimit := rateLimit.getD DEFAULT_RATE_LIMIT
      , requiresApproval := true, isBlocked := false
      , createdAt := now, lastUsed := now }
    { mh with allowedOrigins := mapSet mh.allowedOrigins origin config }

/-- `RateLimiter.MAX_REQUESTS` (background.ts:125). -/
def RL_MAX_REQUESTS : Nat := 50

/-- `RateLimiter.WINDOW_MS` (background.ts:126). -/
def RL_WINDOW_MS : Nat := 60000

/-- The `RateLimiter.requests` map, starting empty. -/
def rlEmpty : String → List Nat := fun _ => []

/-- `RateLimiter.isAllowed` (background.ts:128-143): drop timestamps
outside the sliding window, reject at the ceiling without touching
the map, otherwise append `now` and store the pruned list. -/
def rlIsAllowed (requests : String → List Nat) (origin : String) (now : Nat) :
    Bool × (String → List Nat) :=
  let validTimestamps := (requests origin).filter (fun ts => decide (now - ts < RL_WINDOW_MS))
  if RL_MAX_REQUESTS ≤ validTimestamps.length then (false, requests)
  else (true, fun o => if o = origin then validTimestamps ++ [now] else requests o)

/-- Fold `rlIsAllowed` over a sequence of (origin, now) admissions. -/
def rlRun (requests : String → List Nat) : List (String × Nat) → (String → List Nat)
  | [] => requests
  | c :: cs => rlRun (rlIsAllowed requests c.1 c.2).2 cs

/-- Number of bucket timestamps lying within the closed window
[now − windowMs, now]. -/
def countInWindow (requests : String → List Nat) (origin : String) (now : Nat) : Nat :=
  ((requests origin).filter (fun ts => decide (now - RL_WINDOW_MS ≤ ts ∧ ts ≤ now))).length

/-- `SESSION_TIMEOUT` (background.ts:163): 15 minutes of inactivity. -/
def SESSION_TIMEOUT : Nat := 15 * 60 * 1000

/-- The `chrome.storage.session` slice written by `saveSessionState`;
`lockSession` removes the active/password keys but leaves the
last-activity key behind. -/
structure SessionStore where
  active : Bool
  password : Option String
  lastActivity : Option Nat
deriving DecidableEq

/-- Whole-process state of the background script: the module-level
session variables, the manager singletons, and the storage slices. -/
structure BgState where
  sessionPassword : Option String
  sessionInitialized : Bool
  lastActivityTime : Nat
  sessionStore : SessionStore
  nm : NillionState
  ident : IdentityState
  ls : LocalStorage
  mh : MHState
deriving DecidableEq

/-- `isSessionExpired` (background.ts:171-173). -/
def isSessionExpired (st : BgState) (now : Nat) : Bool :=
  decide (SESSION_TIMEOUT < now - st.lastActivityTime)

/-- `saveSessionState` (background.ts:176-184): persist the session
only while a password is held and the session is initialized. -/
def saveSessionState (st : BgState) : BgState :=
  match st.sessionPassword with
  | some pw =>
    if st.sessionInitialized then
      { st with sessionStore :=
          { active := true, password := some pw, lastActivity := some st.lastActivityTime } }
    else st
  | none => st

/-- `lockSession` (background.ts:231-236): clear the in-memory session
variables, remove the session-storage keys, and clear the identity
manager's `current_session`.  Note that neither the `NillionManager`
in-memory credentials nor the identity manager's cached
`nillion_credentials` are touched. -/
def lockSession (st : BgState) : BgState :=
  let ss : SessionStore := { st.sessionStore with active := false, password := none }
  { st with sessionPassword := none, sessionInitialized := false,
            sessionStore := ss, ident := clearSession st.ident }

/-- Result of `initializeNillionSession`: the boolean the source
returns, the updated process state, and the remote endpoints
reached. -/
structure InitOut where
  ok : Bool
  st : BgState
  remoteTrace : List String

/-- `initializeNillionSession` (background.ts:207-229):
`NillionManager.initialize` = credential retrieval through the
identity manager (cache first!) followed by `nmInitAfterCreds`; on
success record the password, set the flag, persist the session and
create an identity-manager session for the user DID; on any failure
clear both session variables. -/
def initNillionSession (st : BgState) (password : String) (env : NMEnv) : InitOut :=
  match getNillionCredentials st.ident st.ls password with
  | .error _ =>
    { ok := false
    , st := { st with sessionPassword := none, sessionInitialized := false }
    , remoteTrace := [] }
  | .ok credsPair =>
    let st1 := { st with ident := credsPair.2 }
    let out := nmInitAfterCreds st1.nm st1.ls credsPair.1 env
    let st2 := { st1 with nm := out.nm, ls := out.ls }
    match out.result with
    | .error _ =>
      { ok := false
      , st := { st2 with sessionPassword := none, sessionInitialized := false }
      , remoteTrace := out.remoteTrace }
    | .ok _ =>
      let st3 := saveSessionState
        { st2 with sessionPassword := some password, sessionInitialized := true }
      let st4 :=
        if jsTruthy st3.nm.userDid then
          { st3 with ident := createSession st3.ident (st3.nm.userDid.getD "") env.now }
        else st3
      { ok := true, st := st4, remoteTrace := out.remoteTrace }

/-- Payload of `store_data` as the router reads it
(`data` plus `data.metadata.collectionId` / `.collection`). -/
structure StoreInput where
  payload : String
  metaCollectionId : Option String
  metaCollection : Option String
deriving DecidableEq

/-- The externally routed actions — the cases of the `handlePDMMessage`
switch — with the payload fields each case destructures. -/
inductive Action where
  | ping
  | get_identity
  | store_data (input : StoreInput)
  | retrieve_data (documentId : String) (collectionId : Option String)
  | delete_data (documentId : String) (collectionId : Option String)
  | search_data (query : String)
  | share_data (documentId : String) (targetDid : String) (perms : List String)
  | request_permission (resourceId : Option String) (perms : Option (List String))
      (reason : Option String)
  | check_permission (resourceId : String) (permission : String)
  | get_user_data
  | grant_permission (dataId : String) (collectionId : String) (appDid : String)
      (perms : List String)
  | revoke_permission (dataId : String) (collectionId : String) (appDid : String)
      (permissionId : Option String)
  | list_permissions
  | connect (requestedPermissions : Option (List String))
      (requestedActions : Option (List String)) (rateLimit : Option RateLimitCfg)
  | disconnect
  | unlock (password : Option String)
  | lock
  | is_unlocked
  | other (name : String)
deriving DecidableEq

/-- The string the switch in `handlePDMMessage` matches on. -/
def Action.name : Action → String
  | .ping => "ping"
  | .get_identity => "get_identity"
  | .store_data _ => "store_data"
  | .retrieve_data _ _ => "retrieve_data"
  | .delete_data _ _ => "delete_data"
  | .search_data _ => "search_data"
  | .share_data _ _ _ => "share_data"
  | .request_permission _ _ _ => "request_permission"
  | .check_permission _ _ => "check_permission"
  | .get_user_data => "get_user_data"
  | .grant_permission _ _ _ _ => "grant_permission"
  | .revoke_permission _ _ _ _ => "revoke_permission"
  | .list_permissions => "list_permissions"
  | .connect _ _ _ => "connect"
  | .disconnect => "disconnect"
  | .unlock _ => "unlock"
  | .lock => "lock"
  | .is_unlocked => "is_unlocked"
  | .other s => s

/-- Response payloads the router produces (shapes of the
`responseData` objects in the switch cases). -/
inductive RespData where
  | pong (ts : Nat) (version : String)
  | identity (did : Option String) (origin : String)
  | stored (documentId : String)
  | doc (d : DataItem)
  | deleted
  | searchResults (results : List DataItem) (count : Nat)
  | shared
  | permissionRequested (requestId : String)
  | checked (hasPermission : Bool)
  | userData (documents : List DataItem) (count : Nat)
  | granted (message : String)
  | revoked (message : String)
  | permissionsList (permissions : List PermissionEntry) (count : Nat)
  | connected (origin : String) (permissions : List String) (allowedActions : List String)
  | disconnected (origin : String)
  | unlocked (message : String)
  | lockedDone (message : String)
  | unlockedStatus (unlocked : Bool) (nillionReady : Bool)
deriving DecidableEq

/-- Observable dispatches of one routed request: calls into the
storage client (`NillionManager`), remote endpoints reached, and
calls into the legacy `DataManager` / `PermissionManager`
singletons. -/
inductive Dispatch where
  | nillionOp (op : String)
  | remote (endpoint : String)
  | dataOp (op : String)
  | permOp (op : String)
deriving DecidableEq

/-- Oracle inputs for one routed request: the clock, the manifest
version, the storage-client oracles, and the outcomes of the legacy
`DataManager` / `PermissionManager` calls reached by `search_data`,
`share_data`, `request_permission` and `check_permission` (whose
internals are outside the storage client verified here). -/
structure BgEnv where
  now : Nat
  version : String
  nmEnv : NMEnv
  dmSearch : Except String (List DataItem)
  dmShare : Except String Unit
  pmRequest : Except String String
  pmHas : Except String Bool

/-- Result of routing one request. -/
structure RouteOut where
  result : Except String RespData
  st : BgState
  trace : List Dispatch

/-- `handlePDMMessage` (background.ts:360-543): the inactivity gate
(every action but `unlock` / `is_unlocked`, only while the session is
initialized), the activity bump, then the action switch.  Only
`store_data`, `retrieve_data`, `delete_data`, `get_user_data` and
`list_permissions` consult the `isInitialized` lock gate;
`grant_permission` and `revoke_permission` go straight to the storage
client. -/
def handlePDMMessage (st : BgState) (origin : String) (a : Action) (env : BgEnv) :
    RouteOut :=
  if a.name != "unlock" && a.name != "is_unlocked" && st.sessionInitialized
      && isSessionExpired st env.now then
    { result := .error "Session expired due to inactivity. Please unlock again."
    , st := lockSession st, trace := [] }
  else
    let st := if st.sessionInitialized
      then saveSessionState { st with lastActivityTime := env.now } else st
    match a with
    | .ping =>
      { result := .ok (.pong env.now env.version), st := st, trace := [] }
    | .get_identity =>
      if jsTruthy st.nm.userDid then
        { result := .ok (.identity st.nm.userDid origin), st := st, trace := [] }
      else
        let p := getDID st.ident env.now
        { result := .ok (.identity p.1 origin), st := { st with ident := p.2 }, trace := [] }
    | .store_data input =>
      if !isInitialized st.nm then
        { result := .error "Session is locked. Please unlock your wallet first."
        , st := st, trace := [] }
      else
        let out := nmStoreData st.nm st.ls input.payload
          input.metaCollectionId input.metaCollection env.nmEnv
        { result := out.result.map RespData.stored
        , st := { st with nm := out.nm, ls := out.ls }
        , trace := .nillionOp "storeData" :: out.remoteTrace.map Dispatch.remote }
    | .retrieve_data documentId collectionId =>
      if !isInitialized st.nm then
        { result := .error "Session is locked. Please unlock your wallet first."
        , st := st, trace := [] }
      else
        let col := (jsOrStr collectionId (some "pdm_demo_collection")).getD ""
        let out := nmRetrieveData st.nm st.ls documentId col env.nmEnv
        { result := out.result.map RespData.doc
        , st := { st with nm := out.nm, ls := out.ls }
        , trace := .nillionOp "retrieveData" :: out.remoteTrace.map Dispatch.remote }
    | .delete_data documentId collectionId =>
      if !isInitialized st.nm then
        { result := .error "Session is locked. Please unlock your wallet first."
        , st := st, trace := [] }
      else
        let col := (jsOrStr collectionId (some "pdm_demo_collection")).getD ""
        let out := nmDeleteData st.nm st.ls documentId col env.nmEnv
        { result := out.result.map (fun _ => RespData.deleted)
        , st := { st with nm := out.nm, ls := out.ls }
        , trace := .nillionOp "deleteData" :: out.remoteTrace.map Dispatch.remote }
    | .search_data _ =>
      { result := env.dmSearch.map (fun results => .searchResults results results.length)
      , st := st, trace := [.dataOp "searchDocuments"] }
    | .share_data _ _ _ =>
      { result := env.dmShare.map (fun _ => RespData.shared)
      , st := st, trace := [.dataOp "shareDocument"] }
    | .request_permission _ _ _ =>
      { result := env.pmRequest.map RespData.permissionRequested
      , st := st, trace := [.permOp "requestPermission"] }
    | .check_permission _ _ =>
      let p := getDID st.ident env.now
      let st1 := { st with ident := p.2 }
      if !jsTruthy p.1 then
        { result := .error "No active session", st := st1, trace := [] }
      else
        { result := env.pmHas.map RespData.checked
        , st := st1, trace := [.permOp "hasPermission"] }
    | .get_user_data =>
      if !isInitialized st.nm then
        { result := .error "Session is locked. Please unlock your wallet first."
        , st := st, trace := [] }
      else
        let out := nmListUserData st.nm st.ls env.nmEnv
        { result := out.result.map (fun docs => .userData docs docs.length)
        , st := { st with nm := out.nm, ls := out.ls }
        , trace := .nillionOp "listUserData" :: out.remoteTrace.map Dispatch.remote }
    | .grant_permission dataId collectionId appDid perms =>
      let out := nmGrantPermission st.nm st.ls dataId collectionId appDid perms env.nmEnv
      { result := out.result.map (fun _ =>
          .granted ("Granted " ++ String.intercalate ", " perms ++ " to " ++ appDid))
      , st := { st with nm := out.nm, ls := out.ls }
      , trace := .nillionOp "grantPermission" :: out.remoteTrace.map Dispatch.remote }
    | .revoke_permission dataId collectionId appDid permissionId =>
      let out := nmRevokePermission st.nm st.ls dataId collectionId appDid permissionId env.nmEnv
      { result := out.result.map (fun _ => .revoked ("Revoked access from " ++ appDid))
      , st := { st with nm := out.nm, ls := out.ls }
      , trace := .nillionOp "revokePermission" :: out.remoteTrace.map Dispatch.remote }
    | .list_permissions =>
      if !isInitialized st.nm then
        { result := .error "Session is locked. Please unlock your wallet first."
        , st := st, trace := [] }
      else
        let out := nmListPermissions st.nm st.ls env.nmEnv
        { result := out.result.map (fun ps => .permissionsList ps ps.length)
        , st := { st with nm := out.nm, ls := out.ls }
        , trace := .nillionOp "listPermissions" :: out.remoteTrace.map Dispatch.remote }
    | .connect reqPerms reqActions rate =>
      let mh1 := addAllowedOrigin st.mh origin (reqPerms.getD ["read"])
        (reqActions.getD ["ping", "get_identity", "store_data", "retrieve_data"])
        (rate.getD DEFAULT_RATE_LIMIT) env.now
      let resp := RespData.connected origin (reqPerms.getD ["read"])
        (reqActions.getD ["ping", "get_identity"])
      { result := .ok resp, st := { st with mh := mh1 }, trace := [] }
    | .disconnect =>
      { result := .ok (.disconnected origin)
      , st := { st with mh := removeAllowedOrigin st.mh origin }, trace := [] }
    | .unlock password =>
      if !jsTruthy password then
        { result := .error "Password required to unlock", st := st, trace := [] }
      else
        let r := initNillionSession st (password.getD "") env.nmEnv
        if !r.ok then
          { result := .error "Failed to unlock - invalid password or credentials not set"
          , st := r.st
          , trace := .nillionOp "initialize" :: r.remoteTrace.map Dispatch.remote }
        else
          let st2 := saveSessionState { r.st with lastActivityTime := env.now }
          { result := .ok (.unlocked "Nillion session initialized successfully")
          , st := st2
          , trace := .nillionOp "initialize" :: r.remoteTrace.map Dispatch.remote }
    | .lock =>
      { result := .ok (.lockedDone "Nillion session cleared")
      , st := lockSession st, trace := [] }
    | .is_unlocked =>
      { result := .ok (.unlockedStatus st.sessionInitialized (isInitialized st.nm))
      , st := st, trace := [] }
    | .other name =>
      { result := .error ("Unknown action: " ++ name), st := st, trace := [] }

/-- The consolidated `chrome.runtime.onMessage` PDM_MESSAGE path
(background.ts:315-355): the per-origin sliding-window rate limit,
then `handlePDMMessage`.  No other admission check — in particular no
allowed-action check — is performed on this path. -/
def onPDMMessage (st : BgState) (rl : String → List Nat) (origin : String)
    (a : Action) (env : BgEnv) : RouteOut × (String → List Nat) :=
  let p := rlIsAllowed rl origin env.now
  if !p.1 then
    ({ result := .error "Rate limit exceeded. Please try again later."
     , st := st, trace := [] }, p.2)
  else (handlePDMMessage st origin a env, p.2)

/-- Empty local storage (fresh profile). -/
def freshLS : LocalStorage :=
  { demoModeFlag := false, storedUserDid := none, demoData := []
  , strayDemoData := [], permissions := [], credBlob := none }

/-- Identity manager state at process start: empty caches, no stored
session. -/
def freshIdent : IdentityState :=
  { credsCache := none, currentSessionCache := none, storedCurrentSession := none }

/-- Background state at process start, before any unlock: locked
session, uninitialized storage client. -/
def freshState : BgState :=
  { sessionPassword := none, sessionInitialized := false, lastActivityTime := 0
  , sessionStore := { active := false, password := none, lastActivity := none }
  , nm := { credentials := none, userPrivateKey := none, userDid := none, demoMode := false }
  , ident := freshIdent, ls := freshLS
  , mh := { allowedOrigins := [], rateLimitMap := [] } }

/-- Concrete credential record used by the executable scenarios
(mirrors the seed-suite credentials). -/
def creds0 : NillionCredentials := { apiKey := "K", privateKey := some "P" }

/-- A concrete 16-byte salt. -/
def salt0 : List Nat := List.range 16

/-- A concrete 12-byte IV. -/
def iv0 : List Nat := List.range 12

/-- Credential blob encrypted under the passphrase "demo123". -/
def blob0 : EncryptedData :=
  encryptData (encodeCreds creds0) (strBytes "demo123") salt0 iv0

/-- Remote oracle with every endpoint unreachable (server down), as in
a pure-fallback process. -/
def nmEnvDown : NMEnv :=
  { uuid := "u1", now := 1000, nowIso := "t0"
  , remoteDid := .error "down", remoteStore := .error "down"
  , remoteGet := fun _ _ => .error "down", remoteList := .error "down"
  , remoteDelete := fun _ _ => .error "down", remoteGrant := .error "down"
  , remoteRevoke := .error "down", remotePerms := .error "down" }

/-- Router environment over `nmEnvDown`. -/
def envDown : BgEnv :=
  { now := 1000, version := "1.0.0", nmEnv := nmEnvDown
  , dmSearch := .error "dm", dmShare := .error "dm"
  , pmRequest := .error "pm", pmHas := .error "pm" }

/-- Local storage of a profile that has stored credentials and has
previously fallen back (persisted demo flag and stable DID). -/
def ls0 : LocalStorage :=
  { freshLS with credBlob := some blob0, demoModeFlag := true,
                 storedUserDid := some "did:nil:u" }

/-- Process-start state over `ls0`: locked, empty caches. -/
def st0 : BgState := { freshState with ls := ls0 }

/-- Step 1 of the bad-passphrase scenario: unlock with the correct
passphrase. -/
def s1 : RouteOut := handlePDMMessage st0 "https://a.example" (.unlock (some "demo123")) envDown

/-- Step 2: explicit lock. -/
def s2 : RouteOut := handlePDMMessage s1.st "https://a.example" .lock envDown

/-- Step 3: unlock with a wrong passphrase. -/
def s3 : RouteOut := handlePDMMessage s2.st "https://a.example" (.unlock (some "wrong")) envDown

/-- Step 4: query the lock state. -/
def s4 : RouteOut := handlePDMMessage s3.st "https://a.example" .is_unlocked envDown

/-- An initialized storage-client state already in fallback mode. -/
def nmDemo : NillionState :=
  { credentials := some creds0, userPrivateKey := some "P"
  , userDid := some "did:nil:u", demoMode := true }

/-- A concrete fallback document record. -/
def item0 : DataItem :=
  { dataId := "d1", collectionId := "c1", payload := "p", timestamp := 1, storedAt := "t" }

/-- Local storage holding `item0`. -/
def lsItem : LocalStorage := { freshLS with demoData := [item0] }

/-- A concrete `store_data` payload with a valid collection id. -/
def storeInput0 : StoreInput :=
  { payload := "x", metaCollectionId := some "c", metaCollection := none }

/-- `nmDemo` with the fallback flag off: an initialized Online-mode
client. -/
def nmOnline : NillionState := { nmDemo with demoMode := false }

/-- Remote oracle where the data GET and DELETE endpoints answer
(used by the Online-mode witnesses). -/
def nmEnvGetOk : NMEnv :=
  { nmEnvDown with
    remoteGet := fun _ _ => Except.ok item0
    remoteDelete := fun _ _ => Except.ok () }

/-- `MessageHandler` state after a `connect` with requested actions
`["ping"]` from `https://a.example` (the messaging-path connect). -/
def mhConnected : MHState :=
  mhHandleConnect { allowedOrigins := [], rateLimitMap := [] }
    "https://a.example" none (some ["ping"]) none 5

/-- The length bound the sliding-window rate limiter maintains on
every stored bucket. -/
def rlBounded (m : String → List Nat) : Prop :=
  ∀ o, (m o).length ≤ RL_MAX_REQUESTS

end PDM

deriving instance DecidableEq for Except

namespace PDM

/-
  ===================== Theorems =====================
-/

/-- Every byte of a stream-cipher output is < 256. -/
theorem ctrEnc_lt (ks : Nat → Nat) (i : Nat) (l : List Nat) :
    ∀ b ∈ ctrEnc ks i l, b < 256 := by
  induction l generalizing i with
  | nil => simp [ctrEnc]
  | cons b bs ih =>
    simp only [ctrEnc, List.mem_cons]
    rintro x (rfl | hx)
    · exact Nat.mod_lt _ (by omega)
    · exact ih (i + 1) x hx

/-- Every byte of the idealized tag is < 256. -/
theorem gcmTag_lt (key : Nat) (iv body : List Nat) :
    ∀ b ∈ gcmTag key iv body, b < 256 := by
  simp only [gcmTag, List.mem_map]
  rintro b ⟨i, _, rfl⟩
  exact Nat.mod_lt _ (by omega)

/-- The idealized tag is 16 bytes long. -/
theorem gcmTag_length (key : Nat) (iv body : List Nat) :
    (gcmTag key iv body).length = 16 := by
  simp [gcmTag]

/-- Subtracting the keystream inverts adding it, byte-wise. -/
theorem byte_unstep (b k : Nat) (hb : b < 256) :
    ((b + k) % 256 + 256 - k % 256) % 256 = b := by omega

/-- Stream-cipher decryption inverts encryption on byte lists. -/
theorem ctrDec_ctrEnc (ks : Nat → Nat) (i : Nat) (l : List Nat)
    (h : ∀ b ∈ l, b < 256) : ctrDec ks i (ctrEnc ks i l) = l := by
  induction l generalizing i with
  | nil => simp [ctrEnc, ctrDec]
  | cons b bs ih =>
    simp only [ctrEnc, ctrDec, List.cons.injEq]
    refine ⟨byte_unstep b (ks i) (h b (List.mem_cons_self b bs)), ?_⟩
    exact ih (i + 1) fun x hx => h x (List.mem_cons_of_mem b hx)

/-- Decrypting a well-formed body-plus-tag ciphertext passes the tag
check and decrypts the body. -/
theorem aesGcmDecrypt_append (key : Nat) (iv body : List Nat) :
    aesGcmDecrypt key iv (body ++ gcmTag key iv body)
      = some (ctrDec (gcmKeystream key iv) 0 body) := by
  have hlen : (body ++ gcmTag key iv body).length = body.length + 16 := by
    simp [gcmTag_length]
  simp only [aesGcmDecrypt, hlen]
  rw [if_neg (by omega)]
  have h1 : body.length + 16 - 16 = body.length := by omega
  rw [h1, List.take_left, List.drop_left, if_pos rfl]

/-- AES-GCM round trip under the same key and IV. -/
theorem aesGcm_roundtrip (key : Nat) (iv pt : List Nat) (h : ∀ b ∈ pt, b < 256) :
    aesGcmDecrypt key iv (aesGcmEncrypt key iv pt) = some pt := by
  simp only [aesGcmEncrypt]
  rw [aesGcmDecrypt_append, ctrDec_ctrEnc _ _ _ h]

/-- Every byte of an AES-GCM ciphertext is < 256. -/
theorem aesGcmEncrypt_lt (key : Nat) (iv pt : List Nat) :
    ∀ b ∈ aesGcmEncrypt key iv pt, b < 256 := by
  simp only [aesGcmEncrypt, List.mem_append]
  rintro b (hb | hb)
  · exact ctrEnc_lt _ _ _ b hb
  · exact gcmTag_lt _ _ _ b hb

/-- Base64 decoding inverts encoding on byte lists. -/
theorem b64_roundtrip : ∀ l : List Nat, (∀ b ∈ l, b < 256) →
    b64decode (b64encode l) = l
  | [], _ => rfl
  | [a], h => by
    have ha : a < 256 := h a (by simp)
    show b64decode [a / 4, a % 4 * 16, 64, 64] = [a]
    simp only [b64decode, if_true]
    simp only [List.cons.injEq, and_true]
    omega
  | [a, b], h => by
    have ha : a < 256 := h a (by simp)
    have hb : b < 256 := h b (by simp)
    show b64decode [a / 4, a % 4 * 16 + b / 16, b % 16 * 4, 64] = [a, b]
    simp only [b64decode, if_true]
    split_ifs with h1
    · exact absurd h1 (by omega)
    · simp only [List.cons.injEq, and_true]
      omega
  | a :: b :: c :: rest, h => by
    have ha : a < 256 := h a (by simp)
    have hb : b < 256 := h b (by simp)
    have hc : c < 256 := h c (by simp)
    have ih := b64_roundtrip rest fun x hx => h x (by simp [hx])
    show b64decode (a / 4 :: (a % 4 * 16 + b / 16)
        :: (b % 16 * 4 + c / 64) :: c % 64 :: b64encode rest) = a :: b :: c :: rest
    simp only [b64decode]
    split_ifs with h1 h2
    · exact absurd h1 (by omega)
    · exact absurd h2 (by omega)
    · simp only [List.cons.injEq]
      exact ⟨by omega, by omega, by omega, ih⟩

/-- C6: For every passphrase `p`, salt `s`, IV and byte-level plaintext
`x`, decrypting — with the key derived from `(p, s)` — the
ciphertext-and-IV triple produced by `IdentityManager.encryptData`
under the key derived from `(p, s)` returns `x`:
`decrypt(derive(p, s), encrypt(derive(p, s), x)) = x`. -/
theorem C6_encrypt_decrypt_roundtrip (x p s iv : List Nat)
    (hx : ∀ b ∈ x, b < 256) (hs : ∀ b ∈ s, b < 256) (hiv : ∀ b ∈ iv, b < 256) :
    decryptData (encryptData x p s iv) p = some x := by
  simp only [encryptData, decryptData]
  rw [b64_roundtrip s hs, b64_roundtrip iv hiv,
      b64_roundtrip _ (aesGcmEncrypt_lt (deriveKey p s) iv x)]
  exact aesGcm_roundtrip _ _ _ hx

/-- Witness for C6 at a concrete passphrase, salt, IV and plaintext. -/
theorem C6_encrypt_decrypt_roundtrip_witness :
    decryptData (encryptData [1, 2, 255] (strBytes "demo123") salt0 iv0)
      (strBytes "demo123") = some [1, 2, 255] :=
  C6_encrypt_decrypt_roundtrip [1, 2, 255] (strBytes "demo123") salt0 iv0
    (by decide) (by decide) (by decide)

/-- A single admission call keeps every bucket at or below the
ceiling: a rejected call leaves the map untouched, an admitted call
stores a pruned list that was strictly below the ceiling plus one
fresh timestamp. -/
theorem rlIsAllowed_preserves (m : String → List Nat) (o : String) (t : Nat)
    (hm : rlBounded m) : rlBounded (rlIsAllowed m o t).2 := by
  intro o2
  by_cases hc : RL_MAX_REQUESTS ≤
      ((m o).filter (fun ts => decide (t - ts < RL_WINDOW_MS))).length
  · simpa [rlIsAllowed, hc] using hm o2
  · simp only [rlIsAllowed, hc, if_false]
    by_cases he : o2 = o
    · subst he
      simp only [if_pos, if_true, List.length_append, List.length_singleton]
      omega
    · simp only [if_neg he]
      exact hm o2

/-- The bucket-length bound holds after any admission sequence from
the empty map. -/
theorem rlRun_bounded (calls : List (String × Nat)) (m : String → List Nat)
    (hm : rlBounded m) : rlBounded (rlRun m calls) := by
  induction calls generalizing m with
  | nil => exact hm
  | cons c cs ih => exact ih _ (rlIsAllowed_preserves m c.1 c.2 hm)

/-- C7: after any sequence of admissions starting from the empty map,
every origin's rate bucket holds at most `MAX_REQUESTS` timestamps in
the closed window [now − windowMs, now] (indeed at most that many in
total); and an admission that the ceiling rejects returns without
appending — the bucket map is unchanged. -/
theorem C7_rate_bucket_bound (calls : List (String × Nat)) (o : String) (now : Nat)
    (m : String → List Nat) (o2 : String) (t : Nat)
    (hrej : (rlIsAllowed m o2 t).1 = false) :
    countInWindow (rlRun rlEmpty calls) o now ≤ RL_MAX_REQUESTS
    ∧ (rlIsAllowed m o2 t).2 = m := by
  constructor
  · have hb : rlBounded (rlRun rlEmpty calls) :=
      rlRun_bounded calls rlEmpty (fun _ => by simp [rlEmpty])
    calc countInWindow (rlRun rlEmpty calls) o now
        ≤ (rlRun rlEmpty calls o).length := List.length_filter_le _ _
      _ ≤ RL_MAX_REQUESTS := hb o
  · by_cases hc : RL_MAX_REQUESTS ≤
        ((m o2).filter (fun ts => decide (t - ts < RL_WINDOW_MS))).length
    · simp [rlIsAllowed, hc]
    · simp [rlIsAllowed, hc] at hrej

/-- Witness for C7: a two-call sequence, and a full bucket whose next
admission is rejected without mutation. -/
theorem C7_rate_bucket_bound_witness :
    countInWindow (rlRun rlEmpty [("a", 5), ("a", 6)]) "a" 6 ≤ RL_MAX_REQUESTS
    ∧ (rlIsAllowed (fun _ => List.replicate 50 100) "a" 100).2
        = (fun _ => List.replicate 50 100) :=
  C7_rate_bucket_bound [("a", 5), ("a", 6)] "a" 6
    (fun _ => List.replicate 50 100) "a" 100 (by decide)

/-- C1 counterexample: with the session locked (process-start state),
a `ping` request is served normally — the router answers `pong`, not a
Locked or SessionExpired error — so the claim that EVERY
non-{unlock, lock, is_unlocked} action fails while locked is false. -/
theorem C1_counterexample_locked_ping :
    freshState.sessionInitialized = false
    ∧ isInitialized freshState.nm = false
    ∧ (handlePDMMessage freshState "https://a.example" .ping envDown).result
        = .ok (.pong 1000 "1.0.0")
    ∧ ∀ e, (handlePDMMessage freshState "https://a.example" .ping envDown).result
        ≠ .error e := by
  have h0 : (handlePDMMessage freshState "https://a.example" .ping envDown).result
      = .ok (.pong 1000 "1.0.0") := by decide
  refine ⟨rfl, rfl, h0, fun e he => ?_⟩
  rw [h0] at he
  exact Except.noConfusion he

/-- C1 (amended): while the session is locked and the storage client
uninitialized (the process-start lock state), the router rejects
`store_data`, `retrieve_data`, `delete_data`, `get_user_data` and
`list_permissions` with the Locked error, dispatching nothing and
leaving the state untouched; `grant_permission` and
`revoke_permission` ARE dispatched to the storage client, whose guard
rejects them with `Not initialized` before any remote call or ledger
write; and the remaining actions are not lock-gated — `ping`,
`get_identity`, `connect` and `disconnect` complete successfully,
while `is_unlocked` reports the locked state. -/
theorem C1_locked_gate_amended (st : BgState) (origin : String) (env : BgEnv)
    (input : StoreInput) (docId : String) (col : Option String)
    (dataId colId appDid : String) (perms : List String) (permId : Option String)
    (rp ra : Option (List String)) (rlc : Option RateLimitCfg)
    (h1 : st.sessionInitialized = false)
    (h2 : st.nm.credentials = none)
    (h3 : st.nm.userPrivateKey = none) :
    ((handlePDMMessage st origin (.store_data input) env).result
        = .error "Session is locked. Please unlock your wallet first."
      ∧ (handlePDMMessage st origin (.store_data input) env).trace = []
      ∧ (handlePDMMessage st origin (.store_data input) env).st = st)
    ∧ ((handlePDMMessage st origin (.retrieve_data docId col) env).result
        = .error "Session is locked. Please unlock your wallet first."
      ∧ (handlePDMMessage st origin (.retrieve_data docId col) env).trace = [])
    ∧ ((handlePDMMessage st origin (.delete_data docId col) env).result
        = .error "Session is locked. Please unlock your wallet first."
      ∧ (handlePDMMessage st origin (.delete_data docId col) env).trace = [])
    ∧ ((handlePDMMessage st origin .get_user_data env).result
        = .error "Session is locked. Please unlock your wallet first."
      ∧ (handlePDMMessage st origin .get_user_data env).trace = [])
    ∧ ((handlePDMMessage st origin .list_permissions env).result
        = .error "Session is locked. Please unlock your wallet first."
      ∧ (handlePDMMessage st origin .list_permissions env).trace = [])
    ∧ ((handlePDMMessage st origin (.grant_permission dataId colId appDid perms) env).result
        = .error "Not initialized"
      ∧ (handlePDMMessage st origin (.grant_permission dataId colId appDid perms) env).trace
        = [.nillionOp "grantPermission"]
      ∧ (handlePDMMessage st origin (.grant_permission dataId colId appDid perms) env).st.ls
        = st.ls)
    ∧ ((handlePDMMessage st origin (.revoke_permission dataId colId appDid permId) env).result
        = .error "Not initialized"
      ∧ (handlePDMMessage st origin (.revoke_permission dataId colId appDid permId) env).trace
        = [.nillionOp "revokePermission"]
      ∧ (handlePDMMessage st origin (.revoke_permission dataId colId appDid permId) env).st.ls
        = st.ls)
    ∧ (handlePDMMessage st origin .ping env).result = .ok (.pong env.now env.version)
    ∧ (handlePDMMessage st origin .is_unlocked env).result
        = .ok (.unlockedStatus false false)
    ∧ (handlePDMMessage st origin (.connect rp ra rlc) env).result.isOk = true
    ∧ (handlePDMMessage st origin .disconnect env).result.isOk = true
    ∧ (handlePDMMessage st origin .get_identity env).result.isOk = true := by
  have hinit : isInitialized st.nm = false := by
    simp [isInitialized, h2, h3]
  refine ⟨?_, ?_, ?_, ?_, ?_, ?_, ?_, ?_, ?_, ?_, ?_, ?_⟩ <;>
    by_cases hd : jsTruthy st.nm.userDid <;>
      simp [handlePDMMessage, Action.name, h1, h2, h3, hinit, hd,
        nmGrantPermission, nmRevokePermission, Except.map, Except.isOk, Except.toBool]

/-- Witness for C1 (amended) at the process-start state. -/
theorem C1_locked_gate_amended_witness :
    (handlePDMMessage freshState "https://a.example" (.store_data storeInput0) envDown).result
      = .error "Session is locked. Please unlock your wallet first." :=
  (C1_locked_gate_amended freshState "https://a.example" envDown storeInput0
    "d1" none "d1" "c1" "did:nil:app" ["read"] none none none none
    rfl rfl rfl).1.1

/-- C2: at the failing input — `connect` with requested actions
`["ping"]` from `https://a.example`, then `store_data` from the same
origin — the config stored by connect does not allow `store_data`,
and the window-message `MessageHandler` admission (messaging.ts)
would reject it with `Action not allowed`; but the live background
router (the PDM_MESSAGE path) performs no allowed-action check:
the same `store_data` passes admission (only rate limiting) and
proceeds to the lock gate, failing with the Locked error rather than
NotAllowed. -/
theorem C2_store_after_connect_not_rejected :
    (let c1 := handlePDMMessage freshState "https://a.example"
        (.connect none (some ["ping"]) none) envDown
     isActionAllowed c1.st.mh "https://a.example" "store_data" = false
     ∧ (onPDMMessage c1.st rlEmpty "https://a.example"
          (.store_data storeInput0) envDown).1.result
        = .error "Session is locked. Please unlock your wallet first.")
    ∧ (mhHandleMessage mhConnected "https://a.example" "store_data" 6).1
        = .errorSent "Action not allowed"
    ∧ (mhHandleMessage mhConnected "https://a.example" "ping" 6).1
        = .dispatched "ping" := by decide

/-- C3: the claim's own scenario fails on the code: with the blob
encrypted under "demo123", unlock("demo123") succeeds, an explicit
lock follows, and then unlock("wrong") ALSO succeeds — because
`secureRetrieve` serves the cached plaintext credentials without any
passphrase check and `lockSession`/`clearSession` never evict that
cache — so `is_unlocked` then reports unlocked:true.  Yet decrypting
the stored blob under "wrong" does fail, and in a fresh process the
same wrong passphrase is correctly rejected with the
Failed-to-unlock error. -/
theorem C3_wrong_passphrase_unlocks_after_lock :
    s1.result = .ok (.unlocked "Nillion session initialized successfully")
    ∧ s2.result = .ok (.lockedDone "Nillion session cleared")
    ∧ s3.result = .ok (.unlocked "Nillion session initialized successfully")
    ∧ s4.result = .ok (.unlockedStatus true true)
    ∧ decryptData blob0 (strBytes "wrong") = none
    ∧ (handlePDMMessage st0 "https://a.example" (.unlock (some "wrong")) envDown).result
        = .error "Failed to unlock - invalid password or credentials not set" := by
  decide

/-- C4 counterexample: with Fallback (demo) mode already set,
`storeData` still issues a remote `/api/data/store` call, so the claim
that no operation after entering Fallback issues a remote-storage call
is false. -/
theorem C4_counterexample_fallback_store_remote :
    nmDemo.demoMode = true
    ∧ (nmStoreData nmDemo freshLS "x" (some "c1") none nmEnvDown).remoteTrace
        ≠ [] := by decide

/-- C4 (amended): once Fallback mode is set, `retrieveData`,
`listUserData`, `deleteData` and `listPermissions` issue no remote
call and are served from local persistence; but `storeData`,
`grantPermission` and `revokePermission` still attempt their remote
endpoint first on every call, falling back locally only when it
fails. -/
theorem C4_fallback_remote_behavior (nm : NillionState) (ls : LocalStorage)
    (env : NMEnv) (k dataId col payload d2 c2 a2 : String) (perms : List String)
    (mcid mcol : Option String) (permId : Option String)
    (hd : nm.demoMode = true) (hk : nm.userPrivateKey = some k)
    (hcol : jsTruthy (jsOrStr mcid mcol) = true) :
    ((nmRetrieveData nm ls dataId col env).remoteTrace = []
      ∧ (nmRetrieveData nm ls dataId col env).result = (retrieveDataLocally ls dataId).1)
    ∧ ((nmListUserData nm ls env).remoteTrace = []
      ∧ (nmListUserData nm ls env).result = .ok (listDataLocally ls).1)
    ∧ ((nmDeleteData nm ls dataId col env).remoteTrace = []
      ∧ (nmDeleteData nm ls dataId col env).ls = deleteDataLocally ls dataId)
    ∧ ((nmListPermissions nm ls env).remoteTrace = []
      ∧ (nmListPermissions nm ls env).result = .ok ls.permissions)
    ∧ (nmStoreData nm ls payload mcid mcol env).remoteTrace = ["/api/data/store"]
    ∧ (nmGrantPermission nm ls d2 c2 a2 perms env).remoteTrace = ["/api/permissions/grant"]
    ∧ (nmRevokePermission nm ls d2 c2 a2 permId env).remoteTrace
        = ["/api/permissions/revoke"] := by
  refine ⟨⟨?_, ?_⟩, ⟨?_, ?_⟩, ⟨?_, ?_⟩, ⟨?_, ?_⟩, ?_, ?_, ?_⟩
  · simp [nmRetrieveData, hd, hk]
  · simp [nmRetrieveData, hd, hk]
  · simp [nmListUserData, hd, hk]
  · simp [nmListUserData, hd, hk]
  · simp [nmDeleteData, hd, hk]
  · simp [nmDeleteData, hd, hk]
  · simp [nmListPermissions, hd, hk]
  · simp [nmListPermissions, hd, hk]
  · rcases hs : env.remoteStore with v | e <;> simp [nmStoreData, hk, hcol, hs]
  · rcases hs : env.remoteGrant with v | e <;> simp [nmGrantPermission, hk, hs]
  · rcases hs : env.remoteRevoke with v | e <;> simp [nmRevokePermission, hk, hs]

/-- Witness for C4 (amended) at a concrete fallback state. -/
theorem C4_fallback_remote_behavior_witness :
    (nmRetrieveData nmDemo lsItem "d1" "c1" nmEnvDown).remoteTrace = [] :=
  (C4_fallback_remote_behavior nmDemo lsItem nmEnvDown "P" "d1" "c1" "x"
    "d2" "c2" "did:nil:app" ["read"] (some "c1") none none
    rfl rfl (by decide)).1.1

/-- C5 counterexample: `retrieveData` with an empty `collectionId`
returns the stored record — not an InvalidArgument error — so the
claim that every read with an empty collection id fails is false. -/
theorem C5_counterexample_empty_collection_retrieve :
    (nmRetrieveData nmDemo lsItem "d1" "" nmEnvDown).result = .ok item0
    ∧ ∀ e, (nmRetrieveData nmDemo lsItem "d1" "" nmEnvDown).result ≠ .error e := by
  have h0 : (nmRetrieveData nmDemo lsItem "d1" "" nmEnvDown).result = .ok item0 := by
    decide
  refine ⟨h0, fun e he => ?_⟩
  rw [h0] at he
  exact Except.noConfusion he

/-- C5 (amended): only `storeData` validates the collection id — an
absent or empty `metadata.collectionId`/`collection` yields the
required-collectionId error with no remote call and no state change.
The other operations perform no collection-id validation: with an
empty `collectionId`, `retrieveData` and `deleteData` still issue the
remote request, passing the empty value through as the `collection`
query parameter so that the remote outcome alone decides the result
(and in fallback mode they are served locally), and
`grantPermission`/`revokePermission` proceed normally — none of them
produces the required-collectionId error. -/
theorem C5_collection_check_only_on_store (nm : NillionState) (ls : LocalStorage)
    (env : NMEnv) (k payload dataId d2 a2 eg er : String) (item : DataItem)
    (perms : List String) (mcid mcol : Option String)
    (hk : nm.userPrivateKey = some k)
    (hcol : jsTruthy (jsOrStr mcid mcol) = false)
    (hg : env.remoteGrant = .error eg)
    (hr : env.remoteRevoke = .error er)
    (hnd : nm.demoMode = false)
    (hget : env.remoteGet dataId "" = .ok item)
    (hdel : env.remoteDelete dataId "" = .ok ()) :
    ((nmStoreData nm ls payload mcid mcol env).result
        = .error "collectionId is required - app must provide it in metadata"
      ∧ (nmStoreData nm ls payload mcid mcol env).remoteTrace = []
      ∧ (nmStoreData nm ls payload mcid mcol env).ls = ls
      ∧ (nmStoreData nm ls payload mcid mcol env).nm = nm)
    ∧ ((nmRetrieveData nm ls dataId "" env).result = .ok item
      ∧ (nmRetrieveData nm ls dataId "" env).remoteTrace ≠ [])
    ∧ ((nmDeleteData nm ls dataId "" env).result = .ok ()
      ∧ (nmDeleteData nm ls dataId "" env).remoteTrace ≠ [])
    ∧ (nmGrantPermission nm ls d2 "" a2 perms env).result = .ok ()
    ∧ (nmRevokePermission nm ls d2 "" a2 none env).result = .ok () := by
  refine ⟨⟨?_, ?_, ?_, ?_⟩, ⟨?_, ?_⟩, ⟨?_, ?_⟩, ?_, ?_⟩
  · simp [nmStoreData, hk, hcol]
  · simp [nmStoreData, hk, hcol]
  · simp [nmStoreData, hk, hcol]
  · simp [nmStoreData, hk, hcol]
  · simp [nmRetrieveData, hk, hnd, hget]
  · simp [nmRetrieveData, hk, hnd, hget]
  · simp [nmDeleteData, hk, hnd, hdel]
  · simp [nmDeleteData, hk, hnd, hdel]
  · simp [nmGrantPermission, hk, hg]
  · simp [nmRevokePermission, hk, hr]

/-- Witness for C5 (amended): an Online-mode state with a reachable
GET/DELETE endpoint; storing without a collection id fails with the
required-collectionId error. -/
theorem C5_collection_check_only_on_store_witness :
    (nmStoreData nmOnline lsItem "x" none (some "") nmEnvGetOk).result
      = .error "collectionId is required - app must provide it in metadata" :=
  (C5_collection_check_only_on_store nmOnline lsItem nmEnvGetOk
    "P" "x" "d1" "d2" "did:nil:app" "down" "down" item0 ["read"] none (some "")
    rfl (by decide) rfl rfl rfl rfl rfl).1.1

/-- Partition of a list's length by a Boolean predicate. -/
theorem length_filter_partition {α : Type} (l : List α) (p : α → Bool) :
    (l.filter p).length + (l.filter (fun a => !p a)).length = l.length := by
  induction l with
  | nil => rfl
  | cons a as ih => by_cases h : p a <;> simp [List.filter_cons, h] <;> omega

/-- C8: in the fallback ledger, a grant that falls back appends an
entry carrying the freshly minted grantId; a subsequent list (served
from the ledger) includes that id exactly once; a further grant with
a different fresh id keeps it at exactly once; and a revoke naming
that grantId removes it. -/
theorem C8_grant_list_revoke (nm : NillionState) (ls : LocalStorage)
    (env env2 env3 env4 : NMEnv)
    (k dataId colId appDid d3 c3 a3 d4 c4 a4 e1 e3 e4 : String)
    (perms perms3 : List String)
    (hk : nm.userPrivateKey = some k)
    (hg : env.remoteGrant = .error e1)
    (hfresh : env.uuid ∉ ls.permissions.map PermissionEntry.id)
    (hg3 : env3.remoteGrant = .error e3)
    (hne : env3.uuid ≠ env.uuid)
    (hr : env4.remoteRevoke = .error e4)
    (hnz : env.uuid ≠ "") :
    (nmGrantPermission nm ls dataId colId appDid perms env).result = .ok ()
    ∧ (nmListPermissions (nmGrantPermission nm ls dataId colId appDid perms env).nm
        (nmGrantPermission nm ls dataId colId appDid perms env).ls env2).result
      = .ok (nmGrantPermission nm ls dataId colId appDid perms env).ls.permissions
    ∧ ((nmGrantPermission nm ls dataId colId appDid perms env).ls.permissions.filter
          (fun p => p.id == env.uuid)).length = 1
    ∧ ((nmGrantPermission (nmGrantPermission nm ls dataId colId appDid perms env).nm
          (nmGrantPermission nm ls dataId colId appDid perms env).ls
          d3 c3 a3 perms3 env3).ls.permissions.filter
          (fun p => p.id == env.uuid)).length = 1
    ∧ ((nmRevokePermission (nmGrantPermission nm ls dataId colId appDid perms env).nm
          (nmGrantPermission nm ls dataId colId appDid perms env).ls
          d4 c4 a4 (some env.uuid) env4).ls.permissions.filter
          (fun p => p.id == env.uuid)).length = 0 := by
  have hbase : ls.permissions.filter (fun p => p.id == env.uuid) = [] := by
    refine List.filter_eq_nil_iff.mpr fun p hp => ?_
    have hne0 : p.id ≠ env.uuid := fun he =>
      hfresh (he ▸ List.mem_map_of_mem PermissionEntry.id hp)
    simp [hne0]
  have hout1 : nmGrantPermission nm ls dataId colId appDid perms env
      = { result := .ok (), nm := { nm with demoMode := true }
        , ls := { ls with permissions := ls.permissions ++
            [{ id := env.uuid, dataId := dataId, collectionId := colId
             , appDid := appDid, permissions := perms, grantedAt := env.nowIso }] }
        , remoteTrace := ["/api/permissions/grant"] } := by
    simp [nmGrantPermission, hk, hg]
  refine ⟨?_, ?_, ?_, ?_, ?_⟩
  · simp [hout1]
  · simp [hout1, nmListPermissions, hk]
  · simp [hout1, List.filter_append, hbase]
  · rw [hout1]
    simp [nmGrantPermission, hk, hg3, List.filter_append, hbase, hne]
  · rw [hout1]
    simp [nmRevokePermission, hk, hr, jsTruthy, hnz, List.filter_filter]

/-- Witness for C8 at a concrete initial ledger. -/
theorem C8_grant_list_revoke_witness :
    (nmGrantPermission nmDemo freshLS "d1" "c1" "did:nil:app" ["read"] nmEnvDown).result
      = .ok () :=
  (C8_grant_list_revoke nmDemo freshLS nmEnvDown nmEnvDown
    { nmEnvDown with uuid := "u2" } nmEnvDown
    "P" "d1" "c1" "did:nil:app" "d1" "c1" "did:nil:app2" "d1" "c1" "did:nil:app"
    "down" "down" "down" ["read"] ["write"]
    rfl rfl (by decide) rfl (by decide) rfl (by decide)).1

/-- C9: on the fallback path, a revoke that supplies a (truthy)
grantId leaves exactly the entries whose id differs from it — hence,
when the ledger holds exactly one entry with that id, exactly one
entry is removed and every other entry survives; a revoke without a
grantId leaves exactly the entries NOT matching the
(dataId, collectionId, grantee) tuple, and every non-matching entry
survives. -/
theorem C9_revoke_semantics (nm : NillionState) (ls : LocalStorage) (env : NMEnv)
    (dataId colId appDid g k er : String)
    (hk : nm.userPrivateKey = some k)
    (hr : env.remoteRevoke = .error er)
    (hg : g ≠ "") :
    (nmRevokePermission nm ls dataId colId appDid (some g) env).ls.permissions
      = ls.permissions.filter (fun p => p.id != g)
    ∧ (nmRevokePermission nm ls dataId colId appDid none env).ls.permissions
      = ls.permissions.filter (fun p =>
          !(p.dataId == dataId && p.collectionId == colId && p.appDid == appDid))
    ∧ ((ls.permissions.filter (fun p => p.id == g)).length = 1 →
        ((nmRevokePermission nm ls dataId colId appDid (some g) env).ls.permissions).length
          + 1 = ls.permissions.length)
    ∧ (∀ p ∈ ls.permissions, p.id ≠ g →
        p ∈ (nmRevokePermission nm ls dataId colId appDid (some g) env).ls.permissions)
    ∧ (∀ p ∈ ls.permissions,
        ¬(p.dataId = dataId ∧ p.collectionId = colId ∧ p.appDid = appDid) →
        p ∈ (nmRevokePermission nm ls dataId colId appDid none env).ls.permissions) := by
  have hbyid : (nmRevokePermission nm ls dataId colId appDid (some g) env).ls.permissions
      = ls.permissions.filter (fun p => p.id != g) := by
    simp [nmRevokePermission, hk, hr, jsTruthy, hg]
  have hbytuple : (nmRevokePermission nm ls dataId colId appDid none env).ls.permissions
      = ls.permissions.filter (fun p =>
          !(p.dataId == dataId && p.collectionId == colId && p.appDid == appDid)) := by
    simp [nmRevokePermission, hk, hr, jsTruthy]
  refine ⟨hbyid, hbytuple, ?_, ?_, ?_⟩
  · intro hcount
    have hpart := length_filter_partition ls.permissions (fun p => p.id == g)
    rw [hbyid]
    have heq : (ls.permissions.filter (fun p => p.id != g))
        = ls.permissions.filter (fun p => !(p.id == g)) := by
      simp [bne]
    rw [heq]
    omega
  · intro p hp hne
    rw [hbyid]
    exact List.mem_filter.mpr ⟨hp, by simp [hne]⟩
  · intro p hp hne
    rw [hbytuple]
    refine List.mem_filter.mpr ⟨hp, ?_⟩
    simp only [Bool.not_eq_true']
    rcases Decidable.em (p.dataId = dataId) with h1 | h1
    · rcases Decidable.em (p.collectionId = colId) with h2 | h2
      · rcases Decidable.em (p.appDid = appDid) with h3 | h3
        · exact absurd ⟨h1, h2, h3⟩ hne
        · simp [h1, h2, h3]
      · simp [h1, h2]
    · simp [h1]

/-- Witness for C9 at a concrete one-entry ledger. -/
theorem C9_revoke_semantics_witness :
    (nmRevokePermission nmDemo
        { freshLS with permissions :=
            [{ id := "g1", dataId := "d1", collectionId := "c1"
             , appDid := "did:nil:app", permissions := ["read"], grantedAt := "t" }] }
        "d1" "c1" "did:nil:app" (some "g1") nmEnvDown).ls.permissions
      = ([{ id := "g1", dataId := "d1", collectionId := "c1"
          , appDid := "did:nil:app", permissions := ["read"], grantedAt := "t" }]
          : List PermissionEntry).filter (fun p => p.id != "g1") :=
  (C9_revoke_semantics nmDemo
    { freshLS with permissions :=
        [{ id := "g1", dataId := "d1", collectionId := "c1"
         , appDid := "did:nil:app", permissions := ["read"], grantedAt := "t" }] }
    nmEnvDown "d1" "c1" "did:nil:app" "g1" "P" "down"
    rfl rfl (by decide)).1

/-- C10: an unlock whose initialization fails — no cached credentials
and either no stored blob or a blob the supplied passphrase cannot
decrypt — returns the Failed-to-unlock error and leaves the in-memory
session cleared (both the stored session passphrase and the
initialized flag), even when a session was unlocked when the request
arrived; a following is_unlocked therefore reports unlocked:false. -/
theorem C10_failed_unlock_clears_session (st : BgState) (origin origin2 p : String)
    (env env2 : BgEnv)
    (hp : p ≠ "")
    (hcache : st.ident.credsCache = none)
    (hfail : st.ls.credBlob = none
      ∨ ∃ blob, st.ls.credBlob = some blob ∧ decryptData blob (strBytes p) = none) :
    (handlePDMMessage st origin (.unlock (some p)) env).result
      = .error "Failed to unlock - invalid password or credentials not set"
    ∧ (handlePDMMessage st origin (.unlock (some p)) env).st.sessionPassword = none
    ∧ (handlePDMMessage st origin (.unlock (some p)) env).st.sessionInitialized = false
    ∧ (handlePDMMessage (handlePDMMessage st origin (.unlock (some p)) env).st
        origin2 .is_unlocked env2).result
      = .ok (.unlockedStatus false
          (isInitialized (handlePDMMessage st origin (.unlock (some p)) env).st.nm)) := by
  rcases hfail with hb | ⟨blob, hb, hdec⟩
  · by_cases hsi : st.sessionInitialized <;>
      rcases hsp : st.sessionPassword with _ | pw <;>
        simp [handlePDMMessage, Action.name, hsi, hsp, hp, jsTruthy,
          initNillionSession, getNillionCredentials, hcache, hb,
          nmInitAfterCreds, saveSessionState, lockSession, isInitialized]
  · by_cases hsi : st.sessionInitialized <;>
      rcases hsp : st.sessionPassword with _ | pw <;>
        simp [handlePDMMessage, Action.name, hsi, hsp, hp, jsTruthy,
          initNillionSession, getNillionCredentials, hcache, hb, hdec,
          nmInitAfterCreds, saveSessionState, lockSession, isInitialized]

/-- Witness for C10: an in-memory-unlocked state with no credentials
at all; the unlock attempt fails and locks the session. -/
theorem C10_failed_unlock_clears_session_witness :
    (handlePDMMessage { freshState with sessionInitialized := true }
        "o" (.unlock (some "w")) envDown).result
      = .error "Failed to unlock - invalid password or credentials not set" :=
  (C10_failed_unlock_clears_session { freshState with sessionInitialized := true }
    "o" "o" "w" envDown envDown (by decide) rfl (Or.inl rfl)).1

end PDM
